import Mathlib

/-!
Verification development for the clawdbot web-tool adapters and the Postmark
webhook adapter.

The definitions below are a shallow embedding of the TypeScript sources:

* `src/agents/tools/kagi-summarize.ts` (namespace `KagiSummarize`),
* the Kagi FastGPT tool adapter (namespace `KagiFastGPT`),
* the Postmark webhook handler and inbound-email transform (namespace
  `Postmark`).

External effects are made explicit: the wall clock is an `Int` epoch-millisecond
parameter, the upstream HTTP exchange is a `FetchOutcome` parameter (a response,
or a timeout abort), the `KAGI_API_KEY` environment variable is an
`Option String` parameter, and JavaScript exceptions are the `Except.error`
branch of each result.  Helpers that live in `web-shared.ts` and `common.ts`
(not part of the provided sources) are modelled from the specification and
carry a doc comment saying so.
-/

/-- JavaScript truthiness of an optional string (`undefined` and `""` are
falsy). -/
def strOptTruthy : Option String → Bool
  | none => false
  | some s => !s.isEmpty

/-- JavaScript `a || d` where `a : string | undefined` and `d` is the fallback:
yields `a` when `a` is truthy (present and nonempty), else `d`. -/
def jsOrStr (a : Option String) (d : String) : String :=
  match a with
  | some s => if s.isEmpty then d else s
  | none => d

/-- JavaScript `s1 || s2` on two plain strings: `s1` when nonempty, else
`s2`. -/
def jsOrStr2 (s1 s2 : String) : String :=
  if s1.isEmpty then s2 else s1

/-- Rendering of a boolean inside a JS template literal. -/
def boolStr : Bool → String
  | true => "true"
  | false => "false"

/-- Rendering of a `string | undefined` value inside a JS template literal
(`undefined` prints as the string `undefined`). -/
def jsTemplateStr : Option String → String
  | none => "undefined"
  | some s => s

/-- First `n` characters of a string; models the JavaScript `.slice(0, n)` on
the (ASCII) hex digest. -/
def takeChars (s : String) (n : Nat) : String :=
  String.mk (s.data.take n)

/-- JavaScript `.trim()` modelled over the character list: strip whitespace
from both ends. -/
def jsTrim (s : String) : String :=
  String.mk
    (((s.data.dropWhile Char.isWhitespace).reverse.dropWhile
        Char.isWhitespace).reverse)

/-- JavaScript `.toLowerCase()` modelled over the character list. -/
def jsToLower (s : String) : String :=
  String.mk (s.data.map Char.toLower)

/-- JavaScript `.toUpperCase()` modelled over the character list. -/
def jsToUpper (s : String) : String :=
  String.mk (s.data.map Char.toUpper)

/-- One cached value together with its absolute expiry instant
(`web-shared.ts`, re-exported type `CacheEntry`). -/
structure CacheEntry (V : Type) where
  value : V
  expiresAtEpochMs : Int
deriving DecidableEq

/-- A per-adapter cache store: a mapping from normalized key to entry. -/
def CacheStore (V : Type) : Type := String → Option (CacheEntry V)

/-- The empty cache store. -/
def emptyStore (V : Type) : CacheStore V := fun _ => none

/-- Modelled from the spec: `readCache` lives in `web-shared.ts`, which is not
among the provided sources.  Spec §4.1: the read returns absent when no entry
exists for the key or when the entry is past expiry, and §4.1 additionally
requires `ttlMs <= 0` to give immediate-expiry semantics (a miss on the very
next read), so a read at or after `expiresAtEpochMs` behaves as a miss. -/
def readCache {V : Type} (store : CacheStore V) (key : String) (now : Int) :
    Option (CacheEntry V) :=
  match store key with
  | some e => if now < e.expiresAtEpochMs then some e else none
  | none => none

/-- Modelled from the spec: `writeCache` lives in `web-shared.ts`, which is not
among the provided sources.  Spec §4.1: unconditionally insert or overwrite the
entry for `key` with `expiresAtEpochMs = now + ttlMs`. -/
def writeCache {V : Type} (store : CacheStore V) (key : String) (value : V)
    (ttlMs now : Int) : CacheStore V :=
  fun k => if k = key then some ⟨value, now + ttlMs⟩ else store k

/-- Modelled from the spec: `normalizeCacheKey` lives in `web-shared.ts`, which
is not among the provided sources.  Spec §4.2 requires a deterministic, stable
key for the already-concatenated parts (enum parts are canonicalized by the
callers before concatenation), so it is modelled as the identity on the
concatenated string. -/
def normalizeCacheKey (raw : String) : String := raw

/-- Modelled from the spec: `DEFAULT_CACHE_TTL_MINUTES` lives in
`web-shared.ts`, which is not among the provided sources; its concrete value is
immaterial to every claim below. -/
def DEFAULT_CACHE_TTL_MINUTES : Int := 15

/-- Upstream `meta` object common to both Kagi APIs. -/
structure KagiMeta where
  api_balance : Option Int := none
deriving DecidableEq

/-- Upstream embedded error object (`{ code, msg }`). -/
structure KagiError where
  code : Option Int := none
  msg : Option String := none
deriving DecidableEq

/-- An upstream HTTP response as the adapters observe it: `ok`/`status` from
`fetch`, `textDetail` the text produced by `readResponseText` (modelled from
the spec as the response detail text, possibly empty), and the decoded JSON
body. -/
structure HttpResponse (B : Type) where
  ok : Bool
  status : Nat
  statusText : String
  textDetail : String
  body : B
deriving DecidableEq

/-- Outcome of one timeout-bounded `fetch`: either the upstream responded, or
the `withTimeout` signal aborted the call (which surfaces in JavaScript as a
thrown abort error). -/
inductive FetchOutcome (B : Type)
  | timeout
  | response (r : HttpResponse B)
deriving DecidableEq

/-- A JavaScript exception escaping a tool invocation. -/
inductive Thrown
  | apiError (msg : String)
  | timeoutAbort
  | requiredParam (name : String)
deriving DecidableEq

namespace KagiSummarize

/-- The recognized summarizer engines (`SUMMARIZER_ENGINES`). -/
def SUMMARIZER_ENGINES : List String := ["cecil", "agnes", "muriel"]

/-- The recognized summary types (`SUMMARY_TYPES`). -/
def SUMMARY_TYPES : List String := ["summary", "takeaway"]

/-- The recognized target languages (`TARGET_LANGUAGES`). -/
def TARGET_LANGUAGES : List String :=
  ["BG", "CS", "DA", "DE", "EL", "EN", "ES", "ET", "FI", "FR", "HU", "ID",
   "IT", "JA", "KO", "LT", "LV", "NB", "NL", "PL", "PT", "RO", "RU", "SK",
   "SL", "SV", "TR", "UK", "ZH", "ZH-HANT"]

/-- `config.tools.web.summarizer` subtree of the clawdbot configuration. -/
structure SummarizerConfig where
  enabled : Option Bool := none
  apiKey : Option String := none
  timeoutSeconds : Option Int := none
  cacheTtlMinutes : Option Int := none
  cache : Option Bool := none
  engine : Option String := none
  summaryType : Option String := none
  targetLanguage : Option String := none
deriving DecidableEq

/-- `resolveSummarizerEnabled`: explicit boolean wins, default enabled. -/
def resolveSummarizerEnabled (config : Option SummarizerConfig) : Bool :=
  match config with
  | some c =>
    match c.enabled with
    | some b => b
    | none => true
  | none => true

/-- Trimmed environment credential (`(process.env.KAGI_API_KEY ?? "").trim()`),
kept when truthy. -/
def envApiKey (env : Option String) : Option String :=
  let fromEnv := jsTrim (env.getD "")
  if fromEnv.isEmpty then none else some fromEnv

/-- `resolveKagiApiKey`: trimmed config credential when truthy, else the
trimmed environment variable when truthy, else absent. -/
def resolveKagiApiKey (config : Option SummarizerConfig) (env : Option String) :
    Option String :=
  match (config.bind SummarizerConfig.apiKey).map jsTrim with
  | some s => if s.isEmpty then envApiKey env else some s
  | none => envApiKey env

/-- `resolveTimeoutSeconds` (machine numbers modelled as integers). -/
def resolveTimeoutSeconds (config : Option SummarizerConfig) : Int :=
  match config.bind SummarizerConfig.timeoutSeconds with
  | some v => if v > 0 then v else 60
  | none => 60

/-- `resolveCacheTtlMs` (machine numbers modelled as integers). -/
def resolveCacheTtlMs (config : Option SummarizerConfig) : Int :=
  match config.bind SummarizerConfig.cacheTtlMinutes with
  | some minutes =>
    if minutes >= 0 then minutes * 60 * 1000 else DEFAULT_CACHE_TTL_MINUTES * 60 * 1000
  | none => DEFAULT_CACHE_TTL_MINUTES * 60 * 1000

/-- `resolveDefaultCache`: explicit boolean wins, default `true`. -/
def resolveDefaultCache (config : Option SummarizerConfig) : Bool :=
  match config.bind SummarizerConfig.cache with
  | some b => b
  | none => true

/-- `resolveDefaultEngine`: the configured engine when truthy and recognized
(exact match, no normalization), else the built-in default `cecil`. -/
def resolveDefaultEngine (config : Option SummarizerConfig) : String :=
  match config.bind SummarizerConfig.engine with
  | some e => if !e.isEmpty && SUMMARIZER_ENGINES.contains e then e else "cecil"
  | none => "cecil"

/-- `resolveDefaultSummaryType`: the configured type when truthy and
recognized, else `summary`. -/
def resolveDefaultSummaryType (config : Option SummarizerConfig) : String :=
  match config.bind SummarizerConfig.summaryType with
  | some t => if !t.isEmpty && SUMMARY_TYPES.contains t then t else "summary"
  | none => "summary"

/-- `resolveDefaultTargetLanguage`: trimmed upper-cased configured language when
recognized, else absent. -/
def resolveDefaultTargetLanguage (config : Option SummarizerConfig) :
    Option String :=
  match (config.bind SummarizerConfig.targetLanguage).map
      (fun s => jsToUpper (jsTrim s)) with
  | some lang =>
    if !lang.isEmpty && TARGET_LANGUAGES.contains lang then some lang else none
  | none => none

/-- `validateEngine`: falsy input is rejected; otherwise trim and lower-case,
and accept exactly the recognized engines. -/
def validateEngine (engine : Option String) : Option String :=
  if !strOptTruthy engine then none
  else
    let normalized := jsToLower (jsTrim (engine.getD ""))
    if SUMMARIZER_ENGINES.contains normalized then some normalized else none

/-- `validateSummaryType`: falsy input is rejected; otherwise trim and
lower-case, and accept exactly the recognized summary types. -/
def validateSummaryType (summaryType : Option String) : Option String :=
  if !strOptTruthy summaryType then none
  else
    let normalized := jsToLower (jsTrim (summaryType.getD ""))
    if SUMMARY_TYPES.contains normalized then some normalized else none

/-- `validateTargetLanguage`: falsy input is rejected; otherwise trim and
upper-case, accept the recognized codes, and additionally accept the
`ZH-HANT`/`ZHHANT` variant. -/
def validateTargetLanguage (lang : Option String) : Option String :=
  if !strOptTruthy lang then none
  else
    let normalized := jsToUpper (jsTrim (lang.getD ""))
    if TARGET_LANGUAGES.contains normalized then some normalized
    else if normalized = "ZH-HANT" || normalized = "ZHHANT" then some "ZH-HANT"
    else none

/-- The fully resolved parameter record handed to `runSummarize`. -/
structure SummarizeParams where
  url : Option String := none
  text : Option String := none
  engine : String
  summaryType : String
  targetLanguage : Option String := none
  apiKey : String
  cache : Bool
  timeoutSeconds : Int
  cacheTtlMs : Int
deriving DecidableEq

/-- The normalized result record shaped from one summarizer call.  The JS
payload carries no `cached` key; the extra `cached : Bool` field models the
`cached: true` tag spread onto a cache hit, with `false` for a fresh result. -/
structure SummarizePayload where
  provider : String
  source : String
  engine : String
  summaryType : String
  targetLanguage : String
  tookMs : Int
  summary : String
  tokens : Option Nat
  apiBalance : Option Int
  cached : Bool
deriving DecidableEq

/-- Decoded JSON body of a summarizer response (`KagiSummarizeResponse`). -/
structure KagiData where
  output : Option String := none
  tokens : Option Nat := none
deriving DecidableEq

/-- Decoded summarizer response body. -/
structure SummarizeBody where
  meta : Option KagiMeta := none
  data : Option KagiData := none
  error : Option KagiError := none
deriving DecidableEq

/-- Source identifier inside the cache key: the URL when truthy, otherwise the
first 16 hex characters of the SHA-256 digest of the text (`hash` abstracts the
`node:crypto` SHA-256 hex digest). -/
def summarizeSourceKey (hash : String → String) (url text : Option String) :
    String :=
  if strOptTruthy url then url.getD ""
  else takeChars (hash (jsOrStr text "")) 16

/-- The summarizer cache key (`kagi-summarize:...`). -/
def summarizeCacheKey (hash : String → String) (p : SummarizeParams) : String :=
  normalizeCacheKey
    ("kagi-summarize:" ++ summarizeSourceKey hash p.url p.text ++ ":" ++
      p.engine ++ ":" ++ p.summaryType ++ ":" ++
      jsOrStr p.targetLanguage "auto" ++ ":" ++ boolStr p.cache)

/-- The JSON request body built for the summarizer endpoint. -/
structure SummarizeRequestBody where
  engine : String
  summary_type : String
  cache : Bool
  url : Option String := none
  text : Option String := none
  target_language : Option String := none
deriving DecidableEq

/-- Request body construction (lines 236-250 of `kagi-summarize.ts`). -/
def buildSummarizeBody (p : SummarizeParams) : SummarizeRequestBody :=
  { engine := p.engine
    summary_type := p.summaryType
    cache := p.cache
    url := if strOptTruthy p.url then p.url else none
    text :=
      if strOptTruthy p.url then none
      else if strOptTruthy p.text then p.text else none
    target_language :=
      if strOptTruthy p.targetLanguage then p.targetLanguage else none }

/-- Observable outcome of one `runSummarize` call: the returned value or the
thrown exception, the cache store afterwards, the request body handed to
`fetch` (absent when no upstream call was made), and whether the upstream was
contacted at all. -/
structure SummarizeOutcome where
  result : Except Thrown SummarizePayload
  store : CacheStore SummarizePayload
  requestBody : Option SummarizeRequestBody
  upstreamCalled : Bool

/-- `runSummarize`: cache lookup, upstream call, error interpretation, result
shaping and cache write-back.  `now` is the clock at entry, `elapsedMs` the
wall-clock time the upstream exchange took, `fetched` its outcome. -/
def runSummarize (hash : String → String) (store : CacheStore SummarizePayload)
    (now elapsedMs : Int) (fetched : FetchOutcome SummarizeBody)
    (p : SummarizeParams) : SummarizeOutcome :=
  let cacheKey := summarizeCacheKey hash p
  match (if p.cache then readCache store cacheKey now else none) with
  | some cached => ⟨.ok { cached.value with cached := true }, store, none, false⟩
  | none =>
    let body := buildSummarizeBody p
    match fetched with
    | .timeout => ⟨.error .timeoutAbort, store, some body, true⟩
    | .response r =>
      if !r.ok then
        ⟨.error (.apiError ("Kagi Summarizer API error (" ++ toString r.status
            ++ "): " ++ jsOrStr2 r.textDetail r.statusText)),
          store, some body, true⟩
      else if r.body.error.isSome then
        ⟨.error (.apiError ("Kagi Summarizer API error: " ++
            jsOrStr (r.body.error.bind KagiError.msg) "Unknown error")),
          store, some body, true⟩
      else
        let payload : SummarizePayload :=
          { provider := "kagi-summarizer"
            source := jsOrStr p.url "(text input)"
            engine := p.engine
            summaryType := p.summaryType
            targetLanguage := jsOrStr p.targetLanguage "auto"
            tookMs := elapsedMs
            summary := ((r.body.data).bind KagiData.output).getD ""
            tokens := (r.body.data).bind KagiData.tokens
            apiBalance := (r.body.meta).bind KagiMeta.api_balance
            cached := false }
        if p.cache then
          ⟨.ok payload,
            writeCache store cacheKey payload p.cacheTtlMs (now + elapsedMs),
            some body, true⟩
        else ⟨.ok payload, store, some body, true⟩

/-- The argument bag of one `kagi_summarize` invocation, already typed. -/
structure SummarizeArgs where
  url : Option String := none
  text : Option String := none
  engine : Option String := none
  summary_type : Option String := none
  target_language : Option String := none
  cache : Option Bool := none
deriving DecidableEq

/-- Modelled from the spec: `readStringParam` (in `common.ts`, not among the
provided sources) extracts an optional string parameter from the argument bag;
modelled as the typed optional field itself. -/
def readStringParam (v : Option String) : Option String := v

/-- Modelled from the spec: `readBoolParam` (in `common.ts`, not among the
provided sources) extracts an optional boolean parameter from the argument bag;
modelled as the typed optional field itself. -/
def readBoolParam (v : Option Bool) : Option Bool := v

/-- The JSON-shaped value `jsonResult` wraps for the caller: either one of the
structured error records (`{ error, message, docs }`) or the summarize
payload.  `jsonResult` itself (in `common.ts`, not among the provided sources)
is modelled from the spec as this identity wrapping. -/
inductive SummarizeToolResult
  | errorResult (error message docs : String)
  | payload (p : SummarizePayload)
deriving DecidableEq

/-- Observable outcome of one `execute` invocation of the summarize tool. -/
structure SummarizeExecOutcome where
  result : Except Thrown SummarizeToolResult
  store : CacheStore SummarizePayload
  upstreamCalled : Bool

/-- Engine resolution inside `execute`:
`validateEngine(raw) ?? resolveDefaultEngine(config)`. -/
def resolveEngineArg (config : Option SummarizerConfig) (raw : Option String) :
    String :=
  (validateEngine raw).getD (resolveDefaultEngine config)

/-- Summary-type resolution inside `execute`. -/
def resolveSummaryTypeArg (config : Option SummarizerConfig)
    (raw : Option String) : String :=
  (validateSummaryType raw).getD (resolveDefaultSummaryType config)

/-- Target-language resolution inside `execute` (both sides optional). -/
def resolveTargetLanguageArg (config : Option SummarizerConfig)
    (raw : Option String) : Option String :=
  (validateTargetLanguage raw).orElse (fun _ => resolveDefaultTargetLanguage config)

/-- The `execute` closure of the summarize tool (lines 309-365): re-resolve the
credential, validate the mutually exclusive inputs, resolve the enum
parameters, and run the summarizer. -/
def summarizeExecute (hash : String → String)
    (config : Option SummarizerConfig) (env : Option String)
    (store : CacheStore SummarizePayload) (now elapsedMs : Int)
    (fetched : FetchOutcome SummarizeBody) (args : SummarizeArgs) :
    SummarizeExecOutcome :=
  match resolveKagiApiKey config env with
  | none =>
    ⟨.ok (.errorResult "missing_kagi_api_key"
        "kagi_summarize needs an API key. Set KAGI_API_KEY in the Gateway environment, or configure tools.web.summarizer.apiKey."
        "https://help.kagi.com/kagi/api/summarizer.html"),
      store, false⟩
  | some resolvedApiKey =>
    let url := readStringParam args.url
    let text := readStringParam args.text
    if !strOptTruthy url && !strOptTruthy text then
      ⟨.ok (.errorResult "missing_input"
          "Either \x27url\x27 or \x27text\x27 parameter is required."
          "https://help.kagi.com/kagi/api/summarizer.html"),
        store, false⟩
    else if strOptTruthy url && strOptTruthy text then
      ⟨.ok (.errorResult "conflicting_input"
          "Parameters \x27url\x27 and \x27text\x27 are mutually exclusive. Provide only one."
          "https://help.kagi.com/kagi/api/summarizer.html"),
        store, false⟩
    else
      let out := runSummarize hash store now elapsedMs fetched
        { url := url
          text := text
          engine := resolveEngineArg config (readStringParam args.engine)
          summaryType := resolveSummaryTypeArg config (readStringParam args.summary_type)
          targetLanguage := resolveTargetLanguageArg config (readStringParam args.target_language)
          apiKey := resolvedApiKey
          cache := (readBoolParam args.cache).getD (resolveDefaultCache config)
          timeoutSeconds := resolveTimeoutSeconds config
          cacheTtlMs := resolveCacheTtlMs config }
      ⟨out.result.map SummarizeToolResult.payload, out.store, out.upstreamCalled⟩

end KagiSummarize

namespace KagiFastGPT

/-- `config.tools.web.fastgpt` subtree of the clawdbot configuration. -/
structure FastGPTConfig where
  enabled : Option Bool := none
  apiKey : Option String := none
  timeoutSeconds : Option Int := none
  cacheTtlMinutes : Option Int := none
  cache : Option Bool := none
deriving DecidableEq

/-- `resolveFastGPTEnabled`: explicit boolean wins, default enabled. -/
def resolveFastGPTEnabled (config : Option FastGPTConfig) : Bool :=
  match config with
  | some c =>
    match c.enabled with
    | some b => b
    | none => true
  | none => true

/-- `resolveKagiApiKey` of the FastGPT adapter: trimmed config credential when
truthy, else the trimmed `KAGI_API_KEY` environment variable when truthy. -/
def resolveKagiApiKey (config : Option FastGPTConfig) (env : Option String) :
    Option String :=
  match (config.bind FastGPTConfig.apiKey).map jsTrim with
  | some s => if s.isEmpty then KagiSummarize.envApiKey env else some s
  | none => KagiSummarize.envApiKey env

/-- `resolveTimeoutSeconds` of the FastGPT adapter (default 30 seconds). -/
def resolveTimeoutSeconds (config : Option FastGPTConfig) : Int :=
  match config.bind FastGPTConfig.timeoutSeconds with
  | some v => if v > 0 then v else 30
  | none => 30

/-- `resolveCacheTtlMs` of the FastGPT adapter. -/
def resolveCacheTtlMs (config : Option FastGPTConfig) : Int :=
  match config.bind FastGPTConfig.cacheTtlMinutes with
  | some minutes =>
    if minutes >= 0 then minutes * 60 * 1000 else DEFAULT_CACHE_TTL_MINUTES * 60 * 1000
  | none => DEFAULT_CACHE_TTL_MINUTES * 60 * 1000

/-- `resolveDefaultCache` of the FastGPT adapter. -/
def resolveDefaultCache (config : Option FastGPTConfig) : Bool :=
  match config.bind FastGPTConfig.cache with
  | some b => b
  | none => true

/-- One reference as decoded from the upstream body. -/
structure FastGPTRef where
  title : Option String := none
  snippet : Option String := none
  url : Option String := none
deriving DecidableEq

/-- `data` object of a decoded FastGPT response. -/
structure FastGPTData where
  output : Option String := none
  tokens : Option Nat := none
  references : Option (List FastGPTRef) := none
deriving DecidableEq

/-- Decoded FastGPT response body. -/
structure FastGPTBody where
  meta : Option KagiMeta := none
  data : Option FastGPTData := none
  error : Option KagiError := none
deriving DecidableEq

/-- One shaped reference of the normalized result. -/
structure FastGPTRefOut where
  title : String
  url : String
  snippet : String
deriving DecidableEq

/-- The normalized FastGPT result record; `cached` models the `cached: true`
tag spread onto a cache hit. -/
structure FastGPTPayload where
  query : String
  provider : String
  tookMs : Int
  answer : String
  tokens : Option Nat
  references : List FastGPTRefOut
  apiBalance : Option Int
  cached : Bool
deriving DecidableEq

/-- The resolved parameter record handed to `runFastGPT`. -/
structure FastGPTParams where
  query : String
  apiKey : String
  cache : Bool
  timeoutSeconds : Int
  cacheTtlMs : Int
deriving DecidableEq

/-- The FastGPT cache key: the query is concatenated verbatim
(`kagi-fastgpt:query:cacheFlag`). -/
def fastgptCacheKey (query : String) (cache : Bool) : String :=
  normalizeCacheKey ("kagi-fastgpt:" ++ query ++ ":" ++ boolStr cache)

/-- Observable outcome of one `runFastGPT` call. -/
structure FastGPTOutcome where
  result : Except Thrown FastGPTPayload
  store : CacheStore FastGPTPayload
  upstreamCalled : Bool

/-- `runFastGPT`: cache lookup, upstream call, error interpretation, reference
shaping, cache write-back. -/
def runFastGPT (store : CacheStore FastGPTPayload) (now elapsedMs : Int)
    (fetched : FetchOutcome FastGPTBody) (p : FastGPTParams) : FastGPTOutcome :=
  let cacheKey := fastgptCacheKey p.query p.cache
  match (if p.cache then readCache store cacheKey now else none) with
  | some cached => ⟨.ok { cached.value with cached := true }, store, false⟩
  | none =>
    match fetched with
    | .timeout => ⟨.error .timeoutAbort, store, true⟩
    | .response r =>
      if !r.ok then
        ⟨.error (.apiError ("Kagi FastGPT API error (" ++ toString r.status
            ++ "): " ++ jsOrStr2 r.textDetail r.statusText)), store, true⟩
      else if r.body.error.isSome then
        ⟨.error (.apiError ("Kagi FastGPT API error: " ++
            jsOrStr (r.body.error.bind KagiError.msg) "Unknown error")),
          store, true⟩
      else
        let payload : FastGPTPayload :=
          { query := p.query
            provider := "kagi-fastgpt"
            tookMs := elapsedMs
            answer := ((r.body.data).bind FastGPTData.output).getD ""
            tokens := (r.body.data).bind FastGPTData.tokens
            references :=
              (((r.body.data).bind FastGPTData.references).getD []).map
                (fun ref =>
                  { title := ref.title.getD ""
                    url := ref.url.getD ""
                    snippet := ref.snippet.getD "" })
            apiBalance := (r.body.meta).bind KagiMeta.api_balance
            cached := false }
        if p.cache then
          ⟨.ok payload,
            writeCache store cacheKey payload p.cacheTtlMs (now + elapsedMs),
            true⟩
        else ⟨.ok payload, store, true⟩

/-- The argument bag of one `kagi_fastgpt` invocation. -/
structure FastGPTArgs where
  query : Option String := none
  cache : Option Bool := none
deriving DecidableEq

/-- The JSON-shaped value returned to the caller of the FastGPT tool. -/
inductive FastGPTToolResult
  | errorResult (error message docs : String)
  | payload (p : FastGPTPayload)
deriving DecidableEq

/-- Observable outcome of one `execute` invocation of the FastGPT tool. -/
structure FastGPTExecOutcome where
  result : Except Thrown FastGPTToolResult
  store : CacheStore FastGPTPayload
  upstreamCalled : Bool

/-- The `execute` closure of the FastGPT tool (lines 277-301): re-resolve the
credential, read the required query, run FastGPT.  Modelled from the spec:
`readStringParam(params, "query", { required: true })` lives in `common.ts`,
which is not among the provided sources; per §4.4/§9 a missing required
parameter is rejected at this boundary, modelled as a thrown
`requiredParam` error. -/
def fastgptExecute (config : Option FastGPTConfig) (env : Option String)
    (store : CacheStore FastGPTPayload) (now elapsedMs : Int)
    (fetched : FetchOutcome FastGPTBody) (args : FastGPTArgs) :
    FastGPTExecOutcome :=
  match resolveKagiApiKey config env with
  | none =>
    ⟨.ok (.errorResult "missing_kagi_api_key"
        "kagi_fastgpt needs an API key. Set KAGI_API_KEY in the Gateway environment, or configure tools.web.fastgpt.apiKey."
        "https://help.kagi.com/kagi/api/fastgpt.html"),
      store, false⟩
  | some resolvedApiKey =>
    match args.query with
    | none => ⟨.error (.requiredParam "query"), store, false⟩
    | some query =>
      let out := runFastGPT store now elapsedMs fetched
        { query := query
          apiKey := resolvedApiKey
          cache := (KagiSummarize.readBoolParam args.cache).getD (resolveDefaultCache config)
          timeoutSeconds := resolveTimeoutSeconds config
          cacheTtlMs := resolveCacheTtlMs config }
      ⟨out.result.map FastGPTToolResult.payload, out.store, out.upstreamCalled⟩

end KagiFastGPT

/-- `config.tools.web` subtree. -/
structure WebToolsConfig where
  summarizer : Option KagiSummarize.SummarizerConfig := none
  fastgpt : Option KagiFastGPT.FastGPTConfig := none
deriving DecidableEq

/-- `config.tools` subtree. -/
structure ToolsConfig where
  web : Option WebToolsConfig := none
deriving DecidableEq

/-- The clawdbot configuration tree (only the parts these adapters read). -/
structure ClawdbotConfig where
  tools : Option ToolsConfig := none
deriving DecidableEq

/-- `resolveSummarizerConfig`: optional-chaining walk
`cfg?.tools?.web?.summarizer`. -/
def resolveSummarizerConfig (cfg : Option ClawdbotConfig) :
    Option KagiSummarize.SummarizerConfig :=
  ((cfg.bind ClawdbotConfig.tools).bind ToolsConfig.web).bind
    WebToolsConfig.summarizer

/-- `resolveFastGPTConfig`: optional-chaining walk `cfg?.tools?.web?.fastgpt`. -/
def resolveFastGPTConfig (cfg : Option ClawdbotConfig) :
    Option KagiFastGPT.FastGPTConfig :=
  ((cfg.bind ClawdbotConfig.tools).bind ToolsConfig.web).bind
    WebToolsConfig.fastgpt

/-- Options accepted by both tool factories. -/
structure ToolOptions where
  config : Option ClawdbotConfig := none
  sandboxed : Option Bool := none
deriving DecidableEq

/-- Truthiness of `options?.sandboxed`. -/
def sandboxedFlag (options : Option ToolOptions) : Bool :=
  (options.bind ToolOptions.sandboxed).getD false

/-- `createKagiSummarizeTool`: `none` models the `null` return (no tool
offered); `some cfg` models the constructed tool, represented by the summarizer
configuration its `execute` closure captures (its behaviour is
`KagiSummarize.summarizeExecute` applied to that configuration). -/
def createKagiSummarizeTool (env : Option String)
    (options : Option ToolOptions) :
    Option (Option KagiSummarize.SummarizerConfig) :=
  let config := resolveSummarizerConfig (options.bind ToolOptions.config)
  if !KagiSummarize.resolveSummarizerEnabled config then none
  else if (KagiSummarize.resolveKagiApiKey config env).isNone
      && !sandboxedFlag options then none
  else some config

/-- `createKagiFastGPTTool`: `none` models the `null` return; `some cfg` the
constructed tool, represented by the FastGPT configuration its `execute`
closure captures. -/
def createKagiFastGPTTool (env : Option String)
    (options : Option ToolOptions) :
    Option (Option KagiFastGPT.FastGPTConfig) :=
  let config := resolveFastGPTConfig (options.bind ToolOptions.config)
  if !KagiFastGPT.resolveFastGPTEnabled config then none
  else if (KagiFastGPT.resolveKagiApiKey config env).isNone
      && !sandboxedFlag options then none
  else some config

namespace Postmark

/-- The fields of a Postmark inbound email that the handler reads.  The JSON
body is cast without validation (`body as PostmarkInboundEmail`), so every
field is optional here; `FromFullName` flattens the `FromFull?.Name` access
path. -/
structure PostmarkEmail where
  MessageID : Option String := none
  From : Option String := none
  FromFullName : Option String := none
  Subject : Option String := none
  TextBody : Option String := none
  StrippedTextReply : Option String := none
deriving DecidableEq

/-- The display body: `email.StrippedTextReply || email.TextBody || ""`. -/
def emailDisplayBody (e : PostmarkEmail) : String :=
  jsOrStr e.StrippedTextReply (jsOrStr e.TextBody "")

/-- Bounded-length display text:
`textBody.substring(0, 1000) + (textBody.length > 1000 ? "..." : "")`. -/
def truncateForDisplay (s : String) : String :=
  takeChars s 1000 ++ (if s.length > 1000 then "..." else "")

/-- The `**From:**` display value:
`email.FromFull?.Name || email.From` inside a template literal. -/
def fromDisplay (e : PostmarkEmail) : String :=
  jsTemplateStr (if strOptTruthy e.FromFullName then e.FromFullName else e.From)

/-- The formatted human-readable message built by the handler (lines 86-94),
which the source computes and then drops. -/
def formatEmailMessage (e : PostmarkEmail) : String :=
  String.intercalate "\n"
    ["📧 **New Email**", "",
     "**From:** " ++ fromDisplay e,
     "**Subject:** " ++ jsTemplateStr e.Subject,
     "",
     truncateForDisplay (emailDisplayBody e)]

/-- One inbound HTTP request as the handler observes it: the parsed pathname,
the method, and the outcome of `readJsonBody` (the parsed email, or a JSON
parse failure). -/
structure WebhookRequest where
  path : String
  method : String
  body : Except Unit PostmarkEmail

/-- Body of a JSON response written by `sendJson`. -/
inductive RespBody
  | errBody (error : String)
  | ackBody (ok : Bool) (messageId : Option String)
deriving DecidableEq

/-- Observable outcome of one handler invocation: whether the request was
claimed (the boolean the handler returns), the HTTP response written (status
and JSON body), if any, and the message forwarded to the downstream messaging
sink, if any. -/
structure WebhookOutcome where
  claimed : Bool
  response : Option (Nat × RespBody)
  sentToSink : Option String
deriving DecidableEq

/-- The handler returned by `createPostmarkWebhookHandler` (lines 64-106).
The formatted message is computed on the success path but never handed to the
`sendToTelegram` sink (the source destructures only `log` and `getConfig`), so
`sentToSink` is `none` on every path. -/
def handlePostmark (req : WebhookRequest) : WebhookOutcome :=
  if req.path ≠ "/webhooks/postmark" then ⟨false, none, none⟩
  else if req.method ≠ "POST" then
    ⟨true, some (405, .errBody "Method not allowed"), none⟩
  else
    match req.body with
    | .error _ => ⟨true, some (400, .errBody "Invalid payload"), none⟩
    | .ok email =>
      let _message := formatEmailMessage email
      ⟨true, some (200, .ackBody true email.MessageID), none⟩

/-- The inbound-email `transform` of the repository (source file
`part_001`): despite its own doc comment promising a formatted summary, it
returns a debug dump of the raw payload (`payloadJson` stands for
`JSON.stringify(payload, null, 2)`). -/
def transformPostmark (payloadJson : String) : String :=
  "🔍 **DEBUG: Raw Postmark Payload**\n\n```json\n" ++ payloadJson ++ "\n```"

end Postmark

/-- C2: after `write(store, k, v, t)` at time `now`, a read of `k` before the
expiry instant `now + t` returns `v`, a read after it behaves as a miss; no
read of any store ever returns an entry past its expiry; and a write with
`ttlMs <= 0` yields an entry that is a miss on the very next read. -/
theorem c2_cache_read_after_write :
    (∀ (V : Type) (store : CacheStore V) (k : String) (v : V) (ttl now rt : Int),
      readCache (writeCache store k v ttl now) k rt =
        if rt < now + ttl then some ⟨v, now + ttl⟩ else none)
    ∧ (∀ (V : Type) (store : CacheStore V) (k : String) (rt : Int)
        (e : CacheEntry V),
        readCache store k rt = some e → rt < e.expiresAtEpochMs)
    ∧ (∀ (V : Type) (store : CacheStore V) (k : String) (v : V) (ttl now rt : Int),
        ttl ≤ 0 → now ≤ rt →
        readCache (writeCache store k v ttl now) k rt = none) := by
  refine ⟨?_, ?_, ?_⟩
  · intro V store k v ttl now rt
    simp [readCache, writeCache]
  · intro V store k rt e h
    unfold readCache at h
    cases hs : store k with
    | none => rw [hs] at h; exact absurd h (by simp)
    | some e2 =>
      rw [hs] at h
      have h' : (if rt < e2.expiresAtEpochMs then some e2 else none) = some e := h
      by_cases hlt : rt < e2.expiresAtEpochMs
      · rw [if_pos hlt] at h'
        cases h'
        exact hlt
      · rw [if_neg hlt] at h'
        exact absurd h' (by simp)
  · intro V store k v ttl now rt h1 h2
    have heq : readCache (writeCache store k v ttl now) k rt =
        if rt < now + ttl then some ⟨v, now + ttl⟩ else none := by
      simp [readCache, writeCache]
    rw [heq, if_neg (by omega)]

/-- Witness for C2 at concrete inputs: a live entry read at time 5 with expiry
10 satisfies the no-stale-read bound, and a zero-TTL write is a miss on an
immediate next read. -/
theorem c2_cache_witness :
    (5 : Int) < (10 : Int)
    ∧ readCache (writeCache (emptyStore Nat) "k" 42 0 0) "k" 0 = none :=
  ⟨c2_cache_read_after_write.2.1 Nat (writeCache (emptyStore Nat) "k" 42 10 0)
      "k" 5 ⟨42, 10⟩ rfl,
    c2_cache_read_after_write.2.2 Nat (emptyStore Nat) "k" 42 0 0 0
      (by norm_num) (by norm_num)⟩

/-- The webhook HTTP contract exactly as the claim states it (claim-side
definition for the refinement proof): unmatched path is not claimed and the
response is untouched; matched path with a non-POST method is claimed with
`405 {error: Method not allowed}`; a POST whose body parses is claimed with
`200 {ok: true, messageId}` echoing the payload's `MessageID`; a POST whose
body is not valid JSON is claimed with `400 {error: Invalid payload}`. -/
def c7SpecContract (req : Postmark.WebhookRequest) :
    Bool × Option (Nat × Postmark.RespBody) :=
  if req.path ≠ "/webhooks/postmark" then (false, none)
  else if req.method ≠ "POST" then
    (true, some (405, .errBody "Method not allowed"))
  else
    match req.body with
    | .ok email => (true, some (200, .ackBody true email.MessageID))
    | .error _ => (true, some (400, .errBody "Invalid payload"))

/-- C7: for every inbound request, the webhook handler claims exactly the
requests the claim describes and writes exactly the responses the claim
describes. -/
theorem c7_webhook_http_contract :
    ∀ req : Postmark.WebhookRequest,
      ((Postmark.handlePostmark req).claimed,
        (Postmark.handlePostmark req).response) = c7SpecContract req := by
  intro req
  rcases req with ⟨path, method, body⟩
  unfold Postmark.handlePostmark c7SpecContract
  by_cases hp : path = "/webhooks/postmark" <;>
    by_cases hm : method = "POST" <;>
      cases body <;> simp [hp, hm]

/-- C9: tool construction returns no tool exactly when the adapter is disabled
or no credential is resolvable (config, then `KAGI_API_KEY` environment
variable) while the caller is not sandboxed — for both factories. -/
theorem c9_construction_gating :
    ∀ (env : Option String) (options : Option ToolOptions),
      ((createKagiSummarizeTool env options).isNone =
        (!KagiSummarize.resolveSummarizerEnabled
            (resolveSummarizerConfig (options.bind ToolOptions.config))
          || ((KagiSummarize.resolveKagiApiKey
                (resolveSummarizerConfig (options.bind ToolOptions.config))
                env).isNone
              && !sandboxedFlag options)))
      ∧ ((createKagiFastGPTTool env options).isNone =
        (!KagiFastGPT.resolveFastGPTEnabled
            (resolveFastGPTConfig (options.bind ToolOptions.config))
          || ((KagiFastGPT.resolveKagiApiKey
                (resolveFastGPTConfig (options.bind ToolOptions.config))
                env).isNone
              && !sandboxedFlag options))) := by
  intro env options
  constructor
  · unfold createKagiSummarizeTool
    cases h1 : KagiSummarize.resolveSummarizerEnabled
        (resolveSummarizerConfig (options.bind ToolOptions.config)) <;>
      cases h2 : (KagiSummarize.resolveKagiApiKey
          (resolveSummarizerConfig (options.bind ToolOptions.config))
          env).isNone <;>
        cases h3 : sandboxedFlag options <;> simp [h1, h2, h3]
  · unfold createKagiFastGPTTool
    cases h1 : KagiFastGPT.resolveFastGPTEnabled
        (resolveFastGPTConfig (options.bind ToolOptions.config)) <;>
      cases h2 : (KagiFastGPT.resolveKagiApiKey
          (resolveFastGPTConfig (options.bind ToolOptions.config))
          env).isNone <;>
        cases h3 : sandboxedFlag options <;> simp [h1, h2, h3]

/-- C5: with a resolvable credential, calling the summarize operation with
neither a truthy `url` nor a truthy `text` returns the structured
`missing_input` error, and calling it with both returns the structured
`conflicting_input` error; in both cases the store is untouched and no
upstream call is made. -/
theorem c5_mutual_exclusivity :
    (∀ (hash : String → String) (config : Option KagiSummarize.SummarizerConfig)
      (env : Option String) (store : CacheStore KagiSummarize.SummarizePayload)
      (now elapsedMs : Int) (fetched : FetchOutcome KagiSummarize.SummarizeBody)
      (args : KagiSummarize.SummarizeArgs) (k : String),
      KagiSummarize.resolveKagiApiKey config env = some k →
      strOptTruthy args.url = false → strOptTruthy args.text = false →
      (KagiSummarize.summarizeExecute hash config env store now elapsedMs fetched args).result =
        .ok (.errorResult "missing_input"
          "Either \x27url\x27 or \x27text\x27 parameter is required."
          "https://help.kagi.com/kagi/api/summarizer.html")
      ∧ (KagiSummarize.summarizeExecute hash config env store now elapsedMs fetched args).store = store
      ∧ (KagiSummarize.summarizeExecute hash config env store now elapsedMs fetched args).upstreamCalled = false)
    ∧ (∀ (hash : String → String) (config : Option KagiSummarize.SummarizerConfig)
      (env : Option String) (store : CacheStore KagiSummarize.SummarizePayload)
      (now elapsedMs : Int) (fetched : FetchOutcome KagiSummarize.SummarizeBody)
      (args : KagiSummarize.SummarizeArgs) (k : String),
      KagiSummarize.resolveKagiApiKey config env = some k →
      strOptTruthy args.url = true → strOptTruthy args.text = true →
      (KagiSummarize.summarizeExecute hash config env store now elapsedMs fetched args).result =
        .ok (.errorResult "conflicting_input"
          "Parameters \x27url\x27 and \x27text\x27 are mutually exclusive. Provide only one."
          "https://help.kagi.com/kagi/api/summarizer.html")
      ∧ (KagiSummarize.summarizeExecute hash config env store now elapsedMs fetched args).store = store
      ∧ (KagiSummarize.summarizeExecute hash config env store now elapsedMs fetched args).upstreamCalled = false) := by
  constructor
  · intro hash config env store now elapsedMs fetched args k hk hu ht
    unfold KagiSummarize.summarizeExecute
    rw [hk]
    simp [KagiSummarize.readStringParam, hu, ht]
  · intro hash config env store now elapsedMs fetched args k hk hu ht
    unfold KagiSummarize.summarizeExecute
    rw [hk]
    simp [KagiSummarize.readStringParam, hu, ht]

/-- Witness for C5 at concrete inputs: an argument bag with neither input, and
one with both, against a config carrying a credential. -/
theorem c5_witness :
    ((KagiSummarize.summarizeExecute (fun _ => "") (some { apiKey := some "k" })
        none (emptyStore _) 0 0 .timeout {}).result =
      .ok (.errorResult "missing_input"
        "Either \x27url\x27 or \x27text\x27 parameter is required."
        "https://help.kagi.com/kagi/api/summarizer.html"))
    ∧ ((KagiSummarize.summarizeExecute (fun _ => "") (some { apiKey := some "k" })
        none (emptyStore _) 0 0 .timeout
        { url := some "https://example.com", text := some "body" }).result =
      .ok (.errorResult "conflicting_input"
        "Parameters \x27url\x27 and \x27text\x27 are mutually exclusive. Provide only one."
        "https://help.kagi.com/kagi/api/summarizer.html")) :=
  ⟨(c5_mutual_exclusivity.1 (fun _ => "") (some { apiKey := some "k" }) none
      (emptyStore _) 0 0 .timeout {} "k" (by decide) rfl rfl).1,
    (c5_mutual_exclusivity.2 (fun _ => "") (some { apiKey := some "k" }) none
      (emptyStore _) 0 0 .timeout
      { url := some "https://example.com", text := some "body" } "k" (by decide)
      rfl rfl).1⟩

/-- C10: whenever any tool was constructed (in particular in sandboxed mode
with no resolvable credential) and at call time the credential re-resolution
still fails, `execute` returns the structured `missing_kagi_api_key` result
with its remediation message, without throwing, without touching the store and
without contacting the upstream — for both tools. -/
theorem c10_sandboxed_missing_key :
    (∀ (env1 env2 : Option String) (options : Option ToolOptions)
      (cfg : Option KagiSummarize.SummarizerConfig) (hash : String → String)
      (store : CacheStore KagiSummarize.SummarizePayload) (now elapsedMs : Int)
      (fetched : FetchOutcome KagiSummarize.SummarizeBody)
      (args : KagiSummarize.SummarizeArgs),
      createKagiSummarizeTool env1 options = some cfg →
      KagiSummarize.resolveKagiApiKey cfg env2 = none →
      (KagiSummarize.summarizeExecute hash cfg env2 store now elapsedMs fetched args).result =
        .ok (.errorResult "missing_kagi_api_key"
          "kagi_summarize needs an API key. Set KAGI_API_KEY in the Gateway environment, or configure tools.web.summarizer.apiKey."
          "https://help.kagi.com/kagi/api/summarizer.html")
      ∧ (KagiSummarize.summarizeExecute hash cfg env2 store now elapsedMs fetched args).store = store
      ∧ (KagiSummarize.summarizeExecute hash cfg env2 store now elapsedMs fetched args).upstreamCalled = false)
    ∧ (∀ (env1 env2 : Option String) (options : Option ToolOptions)
      (cfg : Option KagiFastGPT.FastGPTConfig)
      (store : CacheStore KagiFastGPT.FastGPTPayload) (now elapsedMs : Int)
      (fetched : FetchOutcome KagiFastGPT.FastGPTBody)
      (args : KagiFastGPT.FastGPTArgs),
      createKagiFastGPTTool env1 options = some cfg →
      KagiFastGPT.resolveKagiApiKey cfg env2 = none →
      (KagiFastGPT.fastgptExecute cfg env2 store now elapsedMs fetched args).result =
        .ok (.errorResult "missing_kagi_api_key"
          "kagi_fastgpt needs an API key. Set KAGI_API_KEY in the Gateway environment, or configure tools.web.fastgpt.apiKey."
          "https://help.kagi.com/kagi/api/fastgpt.html")
      ∧ (KagiFastGPT.fastgptExecute cfg env2 store now elapsedMs fetched args).store = store
      ∧ (KagiFastGPT.fastgptExecute cfg env2 store now elapsedMs fetched args).upstreamCalled = false) := by
  constructor
  · intro env1 env2 options cfg hash store now elapsedMs fetched args hmk hnone
    unfold KagiSummarize.summarizeExecute
    rw [hnone]
    exact ⟨rfl, rfl, rfl⟩
  · intro env1 env2 options cfg store now elapsedMs fetched args hmk hnone
    unfold KagiFastGPT.fastgptExecute
    rw [hnone]
    exact ⟨rfl, rfl, rfl⟩

/-- Witness for C10: both tools constructed sandboxed with no credential
anywhere, then invoked with the environment still empty. -/
theorem c10_witness :
    ((KagiSummarize.summarizeExecute (fun _ => "") none none (emptyStore _) 0 0
        .timeout {}).result =
      .ok (.errorResult "missing_kagi_api_key"
        "kagi_summarize needs an API key. Set KAGI_API_KEY in the Gateway environment, or configure tools.web.summarizer.apiKey."
        "https://help.kagi.com/kagi/api/summarizer.html"))
    ∧ ((KagiFastGPT.fastgptExecute none none (emptyStore _) 0 0 .timeout
        {}).result =
      .ok (.errorResult "missing_kagi_api_key"
        "kagi_fastgpt needs an API key. Set KAGI_API_KEY in the Gateway environment, or configure tools.web.fastgpt.apiKey."
        "https://help.kagi.com/kagi/api/fastgpt.html")) :=
  ⟨(c10_sandboxed_missing_key.1 none none
      (some { config := none, sandboxed := some true }) none (fun _ => "")
      (emptyStore _) 0 0 .timeout {} (by decide) rfl).1,
    (c10_sandboxed_missing_key.2 none none
      (some { config := none, sandboxed := some true }) none
      (emptyStore _) 0 0 .timeout {} (by decide) rfl).1⟩

/-- C6: an unrecognized `engine` argument resolves to the configured default
engine (itself always one of the recognized engines, and the built-in `cecil`
when no valid configured default exists); the same fallback holds for
`summary_type` and `target_language`; and with valid inputs and a credential
the call proceeds — it never returns a structured error result. -/
theorem c6_enum_fallback :
    (∀ (config : Option KagiSummarize.SummarizerConfig) (raw : Option String),
      KagiSummarize.validateEngine raw = none →
      KagiSummarize.resolveEngineArg config raw =
          KagiSummarize.resolveDefaultEngine config
        ∧ KagiSummarize.SUMMARIZER_ENGINES.contains
            (KagiSummarize.resolveDefaultEngine config) = true)
    ∧ (∀ raw : Option String,
      KagiSummarize.validateEngine raw = none →
      KagiSummarize.resolveEngineArg none raw = "cecil")
    ∧ (∀ (config : Option KagiSummarize.SummarizerConfig) (raw : Option String),
      KagiSummarize.validateSummaryType raw = none →
      KagiSummarize.resolveSummaryTypeArg config raw =
          KagiSummarize.resolveDefaultSummaryType config
        ∧ KagiSummarize.SUMMARY_TYPES.contains
            (KagiSummarize.resolveDefaultSummaryType config) = true)
    ∧ (∀ (config : Option KagiSummarize.SummarizerConfig) (raw : Option String),
      KagiSummarize.validateTargetLanguage raw = none →
      KagiSummarize.resolveTargetLanguageArg config raw =
        KagiSummarize.resolveDefaultTargetLanguage config)
    ∧ (∀ (hash : String → String) (config : Option KagiSummarize.SummarizerConfig)
      (env : Option String) (store : CacheStore KagiSummarize.SummarizePayload)
      (now elapsedMs : Int) (fetched : FetchOutcome KagiSummarize.SummarizeBody)
      (args : KagiSummarize.SummarizeArgs) (k : String),
      KagiSummarize.resolveKagiApiKey config env = some k →
      strOptTruthy args.url = true → strOptTruthy args.text = false →
      ∀ code msg docs : String,
        (KagiSummarize.summarizeExecute hash config env store now elapsedMs
            fetched args).result ≠ .ok (.errorResult code msg docs)) := by
  refine ⟨?_, ?_, ?_, ?_, ?_⟩
  · intro config raw h
    refine ⟨by unfold KagiSummarize.resolveEngineArg; rw [h]; rfl, ?_⟩
    unfold KagiSummarize.resolveDefaultEngine
    cases hc : config.bind KagiSummarize.SummarizerConfig.engine with
    | none => decide
    | some e =>
      show KagiSummarize.SUMMARIZER_ENGINES.contains
        (if (!e.isEmpty && KagiSummarize.SUMMARIZER_ENGINES.contains e) = true
          then e else "cecil") = true
      by_cases he : (!e.isEmpty && KagiSummarize.SUMMARIZER_ENGINES.contains e) = true
      · rw [if_pos he]
        exact (Bool.and_eq_true _ _ |>.mp he).2
      · rw [if_neg he]
        decide
  · intro raw h
    unfold KagiSummarize.resolveEngineArg
    rw [h]
    rfl
  · intro config raw h
    refine ⟨by unfold KagiSummarize.resolveSummaryTypeArg; rw [h]; rfl, ?_⟩
    unfold KagiSummarize.resolveDefaultSummaryType
    cases hc : config.bind KagiSummarize.SummarizerConfig.summaryType with
    | none => decide
    | some t =>
      show KagiSummarize.SUMMARY_TYPES.contains
        (if (!t.isEmpty && KagiSummarize.SUMMARY_TYPES.contains t) = true
          then t else "summary") = true
      by_cases ht2 : (!t.isEmpty && KagiSummarize.SUMMARY_TYPES.contains t) = true
      · rw [if_pos ht2]
        exact (Bool.and_eq_true _ _ |>.mp ht2).2
      · rw [if_neg ht2]
        decide
  · intro config raw h
    unfold KagiSummarize.resolveTargetLanguageArg
    rw [h]
    rfl
  · intro hash config env store now elapsedMs fetched args k hk hu ht code msg docs
    unfold KagiSummarize.summarizeExecute
    rw [hk]
    simp only [KagiSummarize.readStringParam, hu, ht, Bool.not_true, Bool.not_false,
      Bool.false_and, Bool.true_and, Bool.and_false, if_neg, ite_false]
    cases hres : (KagiSummarize.runSummarize hash store now elapsedMs fetched
        { url := args.url
          text := args.text
          engine := KagiSummarize.resolveEngineArg config args.engine
          summaryType := KagiSummarize.resolveSummaryTypeArg config args.summary_type
          targetLanguage := KagiSummarize.resolveTargetLanguageArg config args.target_language
          apiKey := k
          cache := (KagiSummarize.readBoolParam args.cache).getD (KagiSummarize.resolveDefaultCache config)
          timeoutSeconds := KagiSummarize.resolveTimeoutSeconds config
          cacheTtlMs := KagiSummarize.resolveCacheTtlMs config }).result with
    | error e => simp [hres, Except.map]
    | ok p => simp [hres, Except.map]

/-- Witness for C6: an unrecognized engine `WRONG` falls back to the configured
`agnes`; unrecognized summary type and target language fall back likewise; and
a call carrying an unrecognized engine with a valid `url` is not answered by
any structured error result. -/
theorem c6_witness :
    KagiSummarize.resolveEngineArg (some { engine := some "agnes" })
        (some "WRONG") = "agnes"
    ∧ KagiSummarize.resolveSummaryTypeArg (some { summaryType := some "takeaway" })
        (some "BAD") = "takeaway"
    ∧ KagiSummarize.resolveTargetLanguageArg (some { targetLanguage := some "es" })
        (some "xx") = some "ES"
    ∧ (KagiSummarize.summarizeExecute (fun _ => "") (some { apiKey := some "k" })
        none (emptyStore _) 0 0 .timeout
        { url := some "https://example.com", engine := some "WRONG" }).result ≠
      .ok (.errorResult "missing_input" "m" "d") :=
  ⟨by
    rw [(c6_enum_fallback.1 (some { engine := some "agnes" }) (some "WRONG")
      (by decide)).1]
    decide,
  by
    rw [(c6_enum_fallback.2.2.1 (some { summaryType := some "takeaway" })
      (some "BAD") (by decide)).1]
    decide,
  by
    rw [c6_enum_fallback.2.2.2.1 (some { targetLanguage := some "es" })
      (some "xx") (by decide)]
    decide,
  c6_enum_fallback.2.2.2.2 (fun _ => "") (some { apiKey := some "k" }) none
    (emptyStore _) 0 0 .timeout
    { url := some "https://example.com", engine := some "WRONG" } "k"
    (by decide) (by decide) (by decide) "missing_input" "m" "d"⟩

/-- C4: with caching disabled for the call, the run leaves the store exactly as
it was, the result does not depend on the store at all, the result is never
tagged as cached, and two calls against upstream responses with different
outputs yield distinct results — for both adapters. -/
theorem c4_cache_bypass :
    (∀ (hash : String → String) (store : CacheStore KagiSummarize.SummarizePayload)
      (now elapsedMs : Int) (fetched : FetchOutcome KagiSummarize.SummarizeBody)
      (p : KagiSummarize.SummarizeParams), p.cache = false →
      (KagiSummarize.runSummarize hash store now elapsedMs fetched p).store = store
      ∧ (∀ store2,
          (KagiSummarize.runSummarize hash store2 now elapsedMs fetched p).result =
            (KagiSummarize.runSummarize hash store now elapsedMs fetched p).result)
      ∧ (∀ pay,
          (KagiSummarize.runSummarize hash store now elapsedMs fetched p).result = .ok pay →
          pay.cached = false)
      ∧ (∀ r1 r2 : HttpResponse KagiSummarize.SummarizeBody,
          r1.ok = true → r2.ok = true →
          r1.body.error = none → r2.body.error = none →
          ((r1.body.data).bind KagiSummarize.KagiData.output).getD "" ≠
            ((r2.body.data).bind KagiSummarize.KagiData.output).getD "" →
          (KagiSummarize.runSummarize hash store now elapsedMs (.response r1) p).result ≠
            (KagiSummarize.runSummarize hash store now elapsedMs (.response r2) p).result))
    ∧ (∀ (store : CacheStore KagiFastGPT.FastGPTPayload)
      (now elapsedMs : Int) (fetched : FetchOutcome KagiFastGPT.FastGPTBody)
      (p : KagiFastGPT.FastGPTParams), p.cache = false →
      (KagiFastGPT.runFastGPT store now elapsedMs fetched p).store = store
      ∧ (∀ store2,
          (KagiFastGPT.runFastGPT store2 now elapsedMs fetched p).result =
            (KagiFastGPT.runFastGPT store now elapsedMs fetched p).result)
      ∧ (∀ pay,
          (KagiFastGPT.runFastGPT store now elapsedMs fetched p).result = .ok pay →
          pay.cached = false)
      ∧ (∀ r1 r2 : HttpResponse KagiFastGPT.FastGPTBody,
          r1.ok = true → r2.ok = true →
          r1.body.error = none → r2.body.error = none →
          ((r1.body.data).bind KagiFastGPT.FastGPTData.output).getD "" ≠
            ((r2.body.data).bind KagiFastGPT.FastGPTData.output).getD "" →
          (KagiFastGPT.runFastGPT store now elapsedMs (.response r1) p).result ≠
            (KagiFastGPT.runFastGPT store now elapsedMs (.response r2) p).result)) := by
  constructor
  · intro hash store now elapsedMs fetched p hc
    refine ⟨?_, ?_, ?_, ?_⟩
    · cases fetched with
      | timeout => simp [KagiSummarize.runSummarize, hc]
      | response r =>
        simp only [KagiSummarize.runSummarize, hc, Bool.false_eq_true, if_false]
        split
        · rfl
        · split <;> rfl
    · intro store2
      cases fetched with
      | timeout => simp [KagiSummarize.runSummarize, hc]
      | response r =>
        simp only [KagiSummarize.runSummarize, hc, Bool.false_eq_true, if_false]
        split
        · rfl
        · split <;> rfl
    · intro pay hres
      cases fetched with
      | timeout => simp [KagiSummarize.runSummarize, hc] at hres
      | response r =>
        simp only [KagiSummarize.runSummarize, hc, Bool.false_eq_true, if_false] at hres
        split at hres
        · exact absurd hres (by simp)
        · split at hres
          · exact absurd hres (by simp)
          · injection hres with h
            subst h
            rfl
    · intro r1 r2 h1 h2 e1 e2 hne heq
      simp only [KagiSummarize.runSummarize, hc, h1, e1, h2, e2, Bool.not_true,
        Bool.false_eq_true, if_false, Option.isSome_none] at heq
      injection heq with h
      exact hne (congrArg KagiSummarize.SummarizePayload.summary h)
  · intro store now elapsedMs fetched p hc
    refine ⟨?_, ?_, ?_, ?_⟩
    · cases fetched with
      | timeout => simp [KagiFastGPT.runFastGPT, hc]
      | response r =>
        simp only [KagiFastGPT.runFastGPT, hc, Bool.false_eq_true, if_false]
        split
        · rfl
        · split <;> rfl
    · intro store2
      cases fetched with
      | timeout => simp [KagiFastGPT.runFastGPT, hc]
      | response r =>
        simp only [KagiFastGPT.runFastGPT, hc, Bool.false_eq_true, if_false]
        split
        · rfl
        · split <;> rfl
    · intro pay hres
      cases fetched with
      | timeout => simp [KagiFastGPT.runFastGPT, hc] at hres
      | response r =>
        simp only [KagiFastGPT.runFastGPT, hc, Bool.false_eq_true, if_false] at hres
        split at hres
        · exact absurd hres (by simp)
        · split at hres
          · exact absurd hres (by simp)
          · injection hres with h
            subst h
            rfl
    · intro r1 r2 h1 h2 e1 e2 hne heq
      simp only [KagiFastGPT.runFastGPT, hc, h1, e1, h2, e2, Bool.not_true,
        Bool.false_eq_true, if_false, Option.isSome_none] at heq
      injection heq with h
      exact hne (congrArg KagiFastGPT.FastGPTPayload.answer h)

/-- Concrete summarize parameters with caching disabled, for the C4 witness. -/
def c4ParamsS : KagiSummarize.SummarizeParams :=
  { url := some "https://example.com"
    engine := "cecil"
    summaryType := "summary"
    apiKey := "k"
    cache := false
    timeoutSeconds := 60
    cacheTtlMs := 0 }

/-- Concrete successful response with output `alpha` (summarizer body). -/
def c4RespAlphaS : HttpResponse KagiSummarize.SummarizeBody :=
  { ok := true
    status := 200
    statusText := "OK"
    textDetail := ""
    body := { data := some ({ output := some "alpha" }) } }

/-- Concrete successful response with output `beta` (summarizer body). -/
def c4RespBetaS : HttpResponse KagiSummarize.SummarizeBody :=
  { ok := true
    status := 200
    statusText := "OK"
    textDetail := ""
    body := { data := some ({ output := some "beta" }) } }

/-- Concrete FastGPT parameters with caching disabled, for the C4 witness. -/
def c4ParamsF : KagiFastGPT.FastGPTParams :=
  { query := "q"
    apiKey := "k"
    cache := false
    timeoutSeconds := 30
    cacheTtlMs := 0 }

/-- Concrete successful response with output `alpha` (FastGPT body). -/
def c4RespAlphaF : HttpResponse KagiFastGPT.FastGPTBody :=
  { ok := true
    status := 200
    statusText := "OK"
    textDetail := ""
    body := { data := some ({ output := some "alpha" }) } }

/-- Concrete successful response with output `beta` (FastGPT body). -/
def c4RespBetaF : HttpResponse KagiFastGPT.FastGPTBody :=
  { ok := true
    status := 200
    statusText := "OK"
    textDetail := ""
    body := { data := some ({ output := some "beta" }) } }

/-- Witness for C4 at concrete inputs: with `cache := false` the store is left
untouched, and two runs against upstreams answering `alpha` and `beta` give
distinct results, for both adapters. -/
theorem c4_witness :
    ((KagiSummarize.runSummarize (fun _ => "") (emptyStore _) 0 0
        FetchOutcome.timeout c4ParamsS).store = emptyStore _)
    ∧ ((KagiSummarize.runSummarize (fun _ => "") (emptyStore _) 0 0
        (.response c4RespAlphaS) c4ParamsS).result ≠
      (KagiSummarize.runSummarize (fun _ => "") (emptyStore _) 0 0
        (.response c4RespBetaS) c4ParamsS).result)
    ∧ ((KagiFastGPT.runFastGPT (emptyStore _) 0 0
        FetchOutcome.timeout c4ParamsF).store = emptyStore _)
    ∧ ((KagiFastGPT.runFastGPT (emptyStore _) 0 0
        (.response c4RespAlphaF) c4ParamsF).result ≠
      (KagiFastGPT.runFastGPT (emptyStore _) 0 0
        (.response c4RespBetaF) c4ParamsF).result) :=
  ⟨(c4_cache_bypass.1 (fun _ => "") (emptyStore _) 0 0 FetchOutcome.timeout
      c4ParamsS rfl).1,
    (c4_cache_bypass.1 (fun _ => "") (emptyStore _) 0 0 FetchOutcome.timeout
      c4ParamsS rfl).2.2.2 c4RespAlphaS c4RespBetaS rfl rfl rfl rfl (by decide),
    (c4_cache_bypass.2 (emptyStore _) 0 0 FetchOutcome.timeout
      c4ParamsF rfl).1,
    (c4_cache_bypass.2 (emptyStore _) 0 0 FetchOutcome.timeout
      c4ParamsF rfl).2.2.2 c4RespAlphaF c4RespBetaF rfl rfl rfl rfl (by decide)⟩

/-- A concrete non-2xx upstream response (status 500, detail `boom`). -/
def c1Resp500 : HttpResponse KagiSummarize.SummarizeBody :=
  { ok := false
    status := 500
    statusText := "Internal Server Error"
    textDetail := "boom"
    body := {} }

/-- C1 counterexample: a fully valid `kagi_summarize` invocation (credential
present, `url` given) whose upstream answers a non-2xx status is NOT returned
as a structured error result — the adapter throws (`Except.error`), refuting
the claim that provider-facing failures never escape as exceptions. -/
theorem c1_counterexample_throws :
    (KagiSummarize.summarizeExecute (fun _ => "") (some { apiKey := some "k" })
        none (emptyStore _) 0 5 (.response c1Resp500)
        { url := some "https://example.com" }).result =
      .error (.apiError "Kagi Summarizer API error (500): boom") := rfl

/-- C1 amended: when the cache does not answer the call, every provider-facing
failure — a timeout abort, a non-2xx upstream status, and a 2xx response whose
decoded body carries an embedded error object — escapes `runSummarize` /
`runFastGPT` as a thrown exception carrying the upstream detail (and the cache
is left unwritten); these failures are not converted into structured results. -/
theorem c1_amended_upstream_failures_throw :
    (∀ (hash : String → String) (store : CacheStore KagiSummarize.SummarizePayload)
      (now elapsedMs : Int) (p : KagiSummarize.SummarizeParams),
      (p.cache = true →
        readCache store (KagiSummarize.summarizeCacheKey hash p) now = none) →
      ((KagiSummarize.runSummarize hash store now elapsedMs .timeout p).result =
          .error .timeoutAbort
        ∧ (KagiSummarize.runSummarize hash store now elapsedMs .timeout p).store = store)
      ∧ (∀ r : HttpResponse KagiSummarize.SummarizeBody, r.ok = false →
          (KagiSummarize.runSummarize hash store now elapsedMs (.response r) p).result =
            .error (.apiError ("Kagi Summarizer API error (" ++ toString r.status
              ++ "): " ++ jsOrStr2 r.textDetail r.statusText))
          ∧ (KagiSummarize.runSummarize hash store now elapsedMs (.response r) p).store = store)
      ∧ (∀ r : HttpResponse KagiSummarize.SummarizeBody,
          r.ok = true → r.body.error.isSome = true →
          (KagiSummarize.runSummarize hash store now elapsedMs (.response r) p).result =
            .error (.apiError ("Kagi Summarizer API error: "
              ++ jsOrStr (r.body.error.bind KagiError.msg) "Unknown error"))
          ∧ (KagiSummarize.runSummarize hash store now elapsedMs (.response r) p).store = store))
    ∧ (∀ (store : CacheStore KagiFastGPT.FastGPTPayload)
      (now elapsedMs : Int) (p : KagiFastGPT.FastGPTParams),
      (p.cache = true →
        readCache store (KagiFastGPT.fastgptCacheKey p.query p.cache) now = none) →
      ((KagiFastGPT.runFastGPT store now elapsedMs .timeout p).result =
          .error .timeoutAbort
        ∧ (KagiFastGPT.runFastGPT store now elapsedMs .timeout p).store = store)
      ∧ (∀ r : HttpResponse KagiFastGPT.FastGPTBody, r.ok = false →
          (KagiFastGPT.runFastGPT store now elapsedMs (.response r) p).result =
            .error (.apiError ("Kagi FastGPT API error (" ++ toString r.status
              ++ "): " ++ jsOrStr2 r.textDetail r.statusText))
          ∧ (KagiFastGPT.runFastGPT store now elapsedMs (.response r) p).store = store)
      ∧ (∀ r : HttpResponse KagiFastGPT.FastGPTBody,
          r.ok = true → r.body.error.isSome = true →
          (KagiFastGPT.runFastGPT store now elapsedMs (.response r) p).result =
            .error (.apiError ("Kagi FastGPT API error: "
              ++ jsOrStr (r.body.error.bind KagiError.msg) "Unknown error"))
          ∧ (KagiFastGPT.runFastGPT store now elapsedMs (.response r) p).store = store)) := by
  constructor
  · intro hash store now elapsedMs p hmiss
    have hhit : (if p.cache then
        readCache store (KagiSummarize.summarizeCacheKey hash p) now else none) = none := by
      cases hc : p.cache
      · rfl
      · simpa using hmiss hc
    refine ⟨?_, ?_, ?_⟩
    · constructor <;> simp [KagiSummarize.runSummarize, hhit]
    · intro r hr
      constructor <;> simp [KagiSummarize.runSummarize, hhit, hr]
    · intro r hok herr
      constructor <;> simp [KagiSummarize.runSummarize, hhit, hok, herr]
  · intro store now elapsedMs p hmiss
    have hhit : (if p.cache then
        readCache store (KagiFastGPT.fastgptCacheKey p.query p.cache) now else none) = none := by
      cases hc : p.cache
      · rfl
      · have h2 := hmiss hc
        rw [hc] at h2
        simpa using h2
    refine ⟨?_, ?_, ?_⟩
    · constructor <;> simp [KagiFastGPT.runFastGPT, hhit]
    · intro r hr
      constructor <;> simp [KagiFastGPT.runFastGPT, hhit, hr]
    · intro r hok herr
      constructor <;> simp [KagiFastGPT.runFastGPT, hhit, hok, herr]

/-- Concrete summarize parameters with caching on, for the C1 witness. -/
def c1ParamsS : KagiSummarize.SummarizeParams :=
  { url := some "https://example.com"
    engine := "cecil"
    summaryType := "summary"
    apiKey := "k"
    cache := true
    timeoutSeconds := 60
    cacheTtlMs := 0 }

/-- Concrete FastGPT parameters with caching on, for the C1 witness. -/
def c1ParamsF : KagiFastGPT.FastGPTParams :=
  { query := "q"
    apiKey := "k"
    cache := true
    timeoutSeconds := 30
    cacheTtlMs := 0 }

/-- Witness for the amended C1 at concrete inputs: a timed-out call against an
empty cache throws the abort error for both adapters. -/
theorem c1_amended_witness :
    ((KagiSummarize.runSummarize (fun _ => "") (emptyStore _) 0 5 .timeout
        c1ParamsS).result = .error .timeoutAbort)
    ∧ ((KagiFastGPT.runFastGPT (emptyStore _) 0 5 .timeout
        c1ParamsF).result = .error .timeoutAbort) :=
  ⟨((c1_amended_upstream_failures_throw.1 (fun _ => "") (emptyStore _) 0 5
      c1ParamsS (fun _ => rfl)).1).1,
    ((c1_amended_upstream_failures_throw.2 (emptyStore _) 0 5
      c1ParamsF (fun _ => rfl)).1).1⟩

/-- A 120-character free-text query (far longer than any fixed digest
prefix). -/
def c3QueryA : String :=
  "longfreetextlongfreetextlongfreetextlongfreetextlongfreetextlongfreetextlongfreetextlongfreetextlongfreetextlongfreetext"

/-- A 140-character query sharing the full 120-character prefix with
`c3QueryA`. -/
def c3QueryB : String :=
  "longfreetextlongfreetextlongfreetextlongfreetextlongfreetextlongfreetextlongfreetextlongfreetextlongfreetextlongfreetextmorefreecontent12345"

set_option maxRecDepth 10000

/-- C3 counterexample: the FastGPT adapter concatenates the free-text query
verbatim into its cache key — the 120-character query appears unchanged inside
the key and the key length grows with the query (138 and 158 characters here),
so the query is not reduced to a fixed-size cryptographic digest prefix. -/
theorem c3_counterexample_fastgpt_verbatim :
    KagiFastGPT.fastgptCacheKey c3QueryA true =
      "kagi-fastgpt:" ++ c3QueryA ++ ":true"
    ∧ c3QueryA.length = 120
    ∧ (KagiFastGPT.fastgptCacheKey c3QueryA true).length = 138
    ∧ (KagiFastGPT.fastgptCacheKey c3QueryB true).length = 158 := by
  refine ⟨rfl, ?_, ?_, ?_⟩ <;> decide

/-- Helper: `takeChars` yields at most `n` characters. -/
theorem takeChars_length_le (s : String) (n : Nat) :
    (takeChars s n).length ≤ n :=
  List.length_take_le n s.data

/-- C3 amended: the summarize adapter reduces a text input to the first 16
characters of its SHA-256 hex digest before concatenation (so the text
contributes a fixed-size fingerprint of at most 16 characters to the key);
the FastGPT adapter instead concatenates the query verbatim into its key —
the key is not fixed-size, though it remains injective in the query, so two
distinct queries never share a key. -/
theorem c3_amended_fingerprinting :
    (∀ (hash : String → String) (text : Option String),
      KagiSummarize.summarizeSourceKey hash none text =
        takeChars (hash (jsOrStr text "")) 16
      ∧ (KagiSummarize.summarizeSourceKey hash none text).length ≤ 16)
    ∧ (∀ (q : String) (c : Bool),
      KagiFastGPT.fastgptCacheKey q c = "kagi-fastgpt:" ++ q ++ ":" ++ boolStr c)
    ∧ (∀ (q1 q2 : String) (c : Bool),
      KagiFastGPT.fastgptCacheKey q1 c = KagiFastGPT.fastgptCacheKey q2 c →
      q1 = q2) := by
  refine ⟨?_, ?_, ?_⟩
  · intro hash text
    exact ⟨rfl, takeChars_length_le (hash (jsOrStr text "")) 16⟩
  · intro q c
    rfl
  · intro q1 q2 c h
    have hd := congrArg String.data h
    simp only [KagiFastGPT.fastgptCacheKey, normalizeCacheKey, String.data_append,
      List.append_assoc] at hd
    have h2 := List.append_cancel_left hd
    have h3 := List.append_cancel_right h2
    exact congrArg String.mk h3

/-- Witness for the amended C3: the key-injectivity implication applied at a
concrete query. -/
theorem c3_amended_witness : ("hello" : String) = "hello" :=
  c3_amended_fingerprinting.2.2 "hello" "hello" true rfl

/-- C8: the handler computes the formatted message — display body preferring
the stripped reply, truncated to 1000 characters with an ellipsis marker —
yet forwards nothing to the downstream messaging sink on any successfully
parsed email: the 200 acknowledgement is written and `sentToSink` is empty
(the handler never invokes its `sendToTelegram` option, and the repository
transform returns a raw debug dump instead of the formatted summary). -/
theorem c8_formatting_without_forwarding :
    (∀ email : Postmark.PostmarkEmail,
      Postmark.handlePostmark ⟨"/webhooks/postmark", "POST", .ok email⟩ =
        ⟨true, some (200, .ackBody true email.MessageID), none⟩)
    ∧ (∀ (e : Postmark.PostmarkEmail) (s : String),
      e.StrippedTextReply = some s → s.isEmpty = false →
      Postmark.emailDisplayBody e = s)
    ∧ (∀ s : String, s.length > 1000 →
      Postmark.truncateForDisplay s = takeChars s 1000 ++ "...")
    ∧ (∀ s : String, Postmark.transformPostmark s =
      "🔍 **DEBUG: Raw Postmark Payload**\n\n```json\n" ++ s ++ "\n```") := by
  refine ⟨?_, ?_, ?_, ?_⟩
  · intro email
    rfl
  · intro e s hs hne
    unfold Postmark.emailDisplayBody
    rw [hs]
    simp [jsOrStr, hne]
  · intro s hlen
    unfold Postmark.truncateForDisplay
    rw [if_pos hlen]
  · intro s
    rfl

/-- Witness for C8 at a concrete input: a parsed email with a nonempty
stripped reply and a 1001-character body exercises the preference and the
truncation hypotheses. -/
theorem c8_witness :
    Postmark.emailDisplayBody
        { StrippedTextReply := some "Hello", TextBody := some "full body" } =
      "Hello"
    ∧ Postmark.truncateForDisplay (String.mk (List.replicate 1001 'a')) =
      takeChars (String.mk (List.replicate 1001 'a')) 1000 ++ "..." :=
  ⟨c8_formatting_without_forwarding.2.1
      { StrippedTextReply := some "Hello", TextBody := some "full body" }
      "Hello" rfl rfl,
    c8_formatting_without_forwarding.2.2.1 (String.mk (List.replicate 1001 'a'))
      (by
        show (List.replicate 1001 'a').length > 1000
        rw [List.length_replicate]
        omega)⟩
